import Mathlib

/-!
Verification development for the leapcpp event-dispatch and managed-wait layer.

Shallow embedding of:
- src/timestamp.rs  (Timestamp::duration_since)
- src/image.rs      (Image::camera)
- src/lib.rs        (Controller::add_listener, ControllerRef::frame_at, Frame::is_valid)
- src/listener.rs   (the extern "C" callback wrappers: catch_unwind then abort on failure)
- src/managed.rs    (ManagedController wait layer, ManagedListener handlers)

Machine integers are modelled as Nat/Int; Rust panics and unreachable arms are
modelled as Option results (none = panic / abort of the surrounding operation).
-/

namespace Leapcpp

/-! ## Timestamps (src/timestamp.rs) -/

/-- Reinterpretation of an i64 value as u64, Rust cast x as u64 (two's complement).
For x in the i64 range this is x itself when x is nonnegative and x + 2^64 otherwise. -/
def i64AsU64 (x : Int) : Nat := (x % (2 ^ 64)).toNat

/-- Rust u64::checked_sub: none when the subtraction would underflow. -/
def checkedSub (a b : Nat) : Option Nat := if a < b then none else some (a - b)

/-- Timestamp::duration_since (src/timestamp.rs lines 18-24):
(self.0 as u64).checked_sub(earlier.0 as u64).expect(..), wrapped in
Duration::from_micros. The result is the duration in microseconds; none models
the panic raised by expect when checked_sub underflows. -/
def duration_since (self earlier : Int) : Option Nat :=
  checkedSub (i64AsU64 self) (i64AsU64 earlier)

/-! ## Camera identification (src/image.rs) -/

/-- Identifies one of the cameras on the controller (src/image.rs 263-268). -/
inductive Camera
| left
| right
deriving DecidableEq, Repr

/-- Image::camera (src/image.rs 88-96): matches the native image id; 0 is the left
camera, 1 the right one, and every other id hits the unreachable panic arm,
modelled as none. -/
def camera (id : Int) : Option Camera :=
  if id = 0 then some Camera.left
  else if id = 1 then some Camera.right
  else none

/-! ## Frames and frame history (src/lib.rs) -/

/-- A frame of tracking data; only its validity bit is relevant here. -/
structure Frame where
  valid : Bool
deriving DecidableEq, Repr

/-- Modelled from the spec: the native query Leap_Controller_frame together with
Leap_Frame_isValid is not part of this repository (it lives in the external
Leap SDK behind leapcpp-sys). Per the spec and the doc comment on
ControllerRef::frame_at, a history value above 59 yields an invalid Frame, and
for values in [0, 59] validity depends only on whether that much history exists;
avail is the number of frames of history the service currently holds. -/
def nativeFrame (history : Nat) (avail : Nat) : Frame :=
  { valid := history ≤ 59 && history < avail }

/-- ControllerRef::frame_at (src/lib.rs 157-165): takes a u8 history age, converts
it losslessly to the native integer argument and always returns a Frame object;
there is no failure path in the function itself. -/
def frame_at (history : Fin 256) (avail : Nat) : Frame :=
  nativeFrame history.val avail

/-- Frame::is_valid (src/lib.rs 242-245). -/
def Frame.is_valid (f : Frame) : Bool := f.valid

/-! ## Listener registration (src/lib.rs 46-57)

Listeners are identified by an opaque token (here a Nat); the Controller state
relevant to registration is its list of retained listeners. -/

/-- Controller::add_listener (src/lib.rs 46-57): builds the native listener, calls
Leap_Controller_addListener (whose verdict is the nativeAccepts argument), pushes
the listener onto self.listeners only on success, and returns () either way
(the source marks the failure path with a FIXME). The pair holds the resulting
listener list and the value returned to the caller. -/
def add_listener (listeners : List Nat) (l : Nat) (nativeAccepts : Bool) :
    List Nat × Unit :=
  if nativeAccepts then (listeners ++ [l], ()) else (listeners, ())

/-! ## The dispatch bridge (src/listener.rs) -/

/-- The eleven listener methods (src/listener.rs 12-29). -/
inductive Method
| on_init
| on_connect
| on_disconnect
| on_exit
| on_frame
| on_focus_gained
| on_focus_lost
| on_service_connect
| on_service_disconnect
| on_device_change
| on_images
deriving DecidableEq, Repr

/-- The eleven event kinds delivered by the native service, one per callback slot
in Leap_RustListenerCallbacks (src/listener.rs 39-51). -/
inductive Event
| init
| connect
| disconnect
| exited
| frame
| focusGained
| focusLost
| serviceConnect
| serviceDisconnect
| deviceChange
| images
deriving DecidableEq, Repr

/-- The pairing produced by wrap_callbacks (src/listener.rs 91-103): which listener
method each native callback invokes. -/
def methodFor : Event → Method
| .init => .on_init
| .connect => .on_connect
| .disconnect => .on_disconnect
| .exited => .on_exit
| .frame => .on_frame
| .focusGained => .on_focus_gained
| .focusLost => .on_focus_lost
| .serviceConnect => .on_service_connect
| .serviceDisconnect => .on_service_disconnect
| .deviceChange => .on_device_change
| .images => .on_images

/-- What the native caller observes of one callback wrapper invocation:
a normal return, a process abort, or an unwind into the native frame.
The embedding of the wrapper never produces the last one. -/
inductive DispatchOutcome
| returned
| aborted
| unwound
deriving DecidableEq, Repr

/-- A user listener's behavior: for each method, the handler body either returns
normally or panics (the error carries the panic payload). -/
def ListenerBehavior := Method → Except String Unit

/-- Rust's catch_unwind around a closure: the panic, if any, is captured as the
error branch instead of propagating. -/
def catchUnwind (f : Unit → Except String Unit) : Except String Unit := f ()

/-- The body generated by wrap_callbacks for one callback (src/listener.rs 72-86):
resolve userdata back to the exact registered listener, run the matching method
under catch_unwind, and abort the process if the result is an error. Returns the
outcome seen by the native caller together with the list of
(listener token, method) invocations the wrapper performed. -/
def dispatch (listenerId : Nat) (behavior : ListenerBehavior) (m : Method) :
    DispatchOutcome × List (Nat × Method) :=
  match catchUnwind (fun _ => behavior m) with
  | .ok _ => (DispatchOutcome.returned, [(listenerId, m)])
  | .error _ => (DispatchOutcome.aborted, [(listenerId, m)])

/-- One native callback slot, as wired by wrap_callbacks: the slot for event ev
invokes exactly the matching method. -/
def cbWrapper (ev : Event) (listenerId : Nat) (behavior : ListenerBehavior) :
    DispatchOutcome × List (Nat × Method) :=
  dispatch listenerId behavior (methodFor ev)

/-! ## The managed wait layer (src/managed.rs)

The Shared structure (src/managed.rs 127-144) holds one plain mutex for the
level-triggered condvars (shared.mutex, guarding no data of its own: the watched
state lives in the native Connection), one u64-holding mutex per edge-triggered
counter, and one condvar per wait condition. -/

/-- The mutexes of Shared (src/managed.rs 127-133). -/
inductive MutexId
| shared
| frameCtr
| imagesCtr
| deviceChangeCtr
deriving DecidableEq, Repr

/-- The condvars of Shared (src/managed.rs 135-143). -/
inductive CvId
| device_connect
| device_disconnect
| service_connect
| service_disconnect
| frame
| focus_gained
| focus_lost
| device_change
| images
deriving DecidableEq, Repr

/-- One atomic action performed by a ManagedListener handler body
(src/managed.rs 151-193). A statement of the shape star-lock-add-one is the
three actions lock, incr, unlock (the temporary guard is dropped at the end of
the statement); notify_all takes no lock. -/
inductive Act
| lock (m : MutexId)
| incr (m : MutexId)
| unlock (m : MutexId)
| notify_all (cv : CvId)
deriving DecidableEq, Repr

/-- ManagedListener::on_connect (src/managed.rs 155-157). -/
def on_connect_acts : List Act := [Act.notify_all CvId.device_connect]

/-- ManagedListener::on_disconnect (src/managed.rs 159-161). -/
def on_disconnect_acts : List Act := [Act.notify_all CvId.device_disconnect]

/-- ManagedListener::on_frame (src/managed.rs 163-166). -/
def on_frame_acts : List Act :=
  [Act.lock MutexId.frameCtr, Act.incr MutexId.frameCtr, Act.unlock MutexId.frameCtr,
   Act.notify_all CvId.frame]

/-- ManagedListener::on_focus_gained (src/managed.rs 168-170). -/
def on_focus_gained_acts : List Act := [Act.notify_all CvId.focus_gained]

/-- ManagedListener::on_focus_lost (src/managed.rs 172-174). -/
def on_focus_lost_acts : List Act := [Act.notify_all CvId.focus_lost]

/-- ManagedListener::on_service_connect (src/managed.rs 176-178). -/
def on_service_connect_acts : List Act := [Act.notify_all CvId.service_connect]

/-- ManagedListener::on_service_disconnect (src/managed.rs 180-182). -/
def on_service_disconnect_acts : List Act := [Act.notify_all CvId.service_disconnect]

/-- ManagedListener::on_device_change (src/managed.rs 184-187). -/
def on_device_change_acts : List Act :=
  [Act.lock MutexId.deviceChangeCtr, Act.incr MutexId.deviceChangeCtr,
   Act.unlock MutexId.deviceChangeCtr, Act.notify_all CvId.device_change]

/-- ManagedListener::on_images (src/managed.rs 189-192). -/
def on_images_acts : List Act :=
  [Act.lock MutexId.imagesCtr, Act.incr MutexId.imagesCtr, Act.unlock MutexId.imagesCtr,
   Act.notify_all CvId.images]

/-- The action list of each ManagedListener handler (src/managed.rs 151-193);
on_init and on_exit have empty bodies. -/
def handlerActs : Method → List Act
| .on_init => []
| .on_exit => []
| .on_connect => on_connect_acts
| .on_disconnect => on_disconnect_acts
| .on_frame => on_frame_acts
| .on_focus_gained => on_focus_gained_acts
| .on_focus_lost => on_focus_lost_acts
| .on_service_connect => on_service_connect_acts
| .on_service_disconnect => on_service_disconnect_acts
| .on_device_change => on_device_change_acts
| .on_images => on_images_acts

/-- Tracks the set of mutexes held while scanning an action list and checks that
every notify_all in it happens while m is held. -/
def notifiesUnderLockAux (m : MutexId) (held : List MutexId) : List Act → Bool
| [] => true
| Act.lock m' :: rest => notifiesUnderLockAux m (m' :: held) rest
| Act.incr _ :: rest => notifiesUnderLockAux m held rest
| Act.unlock m' :: rest => notifiesUnderLockAux m (held.erase m') rest
| Act.notify_all _ :: rest => held.contains m && notifiesUnderLockAux m held rest

/-- Whether every condvar notification in acts is performed while holding m
(starting from no mutex held, as each handler does). -/
def notifiesUnderLock (acts : List Act) (m : MutexId) : Bool :=
  notifiesUnderLockAux m [] acts

/-- The three edge-triggered counters of Shared (the u64 values inside
mutex_frame, mutex_images, mutex_device_change). The u64 cannot wrap within any
realistic lifetime (2^64 deliveries), so the counters are modelled as Nat. -/
structure Counters where
  frame : Nat
  images : Nat
  device_change : Nat
deriving DecidableEq, Repr

/-- Effect of one handler action on the counters: only incr on a counter mutex
changes anything. -/
def applyAct : Act → Counters → Counters
| Act.incr MutexId.frameCtr, c => { c with frame := c.frame + 1 }
| Act.incr MutexId.imagesCtr, c => { c with images := c.images + 1 }
| Act.incr MutexId.deviceChangeCtr, c => { c with device_change := c.device_change + 1 }
| _, c => c

/-- Runs an action list over the counters. -/
def runActs (acts : List Act) (c : Counters) : Counters :=
  acts.foldl (fun c a => applyAct a c) c

/-- Effect on the counters of one event delivery to the internal ManagedListener. -/
def deliver (ev : Method) (c : Counters) : Counters :=
  runActs (handlerActs ev) c

/-- Effect of a whole sequence of deliveries, in order. -/
def deliverAll (evs : List Method) (c : Counters) : Counters :=
  evs.foldl (fun c e => deliver e c) c

/-- Number of occurrences of one event kind in a delivery sequence. -/
def countEv (m : Method) : List Method → Nat
| [] => 0
| e :: rest => (if e = m then 1 else 0) + countEv m rest

/-- Observable effects of a handler, for stating what a handler does and in which
order: a write to the counter guarded by a mutex, or a condvar signal. -/
inductive Obs
| wrote (m : MutexId)
| signalled (cv : CvId)
deriving DecidableEq, Repr

/-- The observable trace of an action list: its counter writes and signals, in
program order (lock and unlock themselves are not observable effects). -/
def traceOf : List Act → List Obs
| [] => []
| Act.incr m :: rest => Obs.wrote m :: traceOf rest
| Act.notify_all cv :: rest => Obs.signalled cv :: traceOf rest
| Act.lock _ :: rest => traceOf rest
| Act.unlock _ :: rest => traceOf rest

/-- The constructor steps of ManagedController::new (src/managed.rs 19-44), in
order: build the Shared block, build the inner Controller, register the single
internal ManagedListener. -/
inductive NewOp
| mkShared
| mkController
| addInternalListener
deriving DecidableEq, Repr

/-- ManagedController::new as its ordered list of constructor steps. -/
def managedNew_ops : List NewOp :=
  [NewOp.mkShared, NewOp.mkController, NewOp.addInternalListener]

/-- How many listener registrations ManagedController::new performs. -/
def registrationCount : Nat :=
  (managedNew_ops.filter (fun op => op = NewOp.addInternalListener)).length

/-! ## Interleaving machine for the level-triggered waits

One waiter thread executes ManagedController::wait_until
(src/managed.rs 99-102) for a level-triggered property, and the event-source
thread applies the transition that makes the predicate true: the native service
flips the watched boolean (which lives in the Connection, outside shared.mutex)
and then runs the matching ManagedListener handler, whose whole body is
notify_all without taking any lock (for example on_connect,
src/managed.rs 155-157). Condvar::wait_while is modelled faithfully: the
predicate is evaluated while holding the mutex, blocking atomically enqueues on
the condvar and releases the mutex, waking re-acquires the mutex before the
re-check. -/

/-- Program counter of the waiter thread in wait_until. -/
inductive WPc
| start
| check
| preWait
| blocked
| waking
| done
deriving DecidableEq, Repr

/-- Program counter of the event-source thread: flip the native state, then run
the notify-only handler. -/
inductive NPc
| start
| flipped
| done
deriving DecidableEq, Repr

/-- Global state of the level-triggered machine. flag is the watched native
boolean (for example ControllerRef::is_connected); mutexFree tracks
shared.mutex; queued says whether the waiter sits in the condvar queue;
everBlocked records whether the waiter has ever blocked. -/
structure LevelState where
  flag : Bool
  mutexFree : Bool
  queued : Bool
  wpc : WPc
  npc : NPc
  everBlocked : Bool
deriving DecidableEq, Repr

/-- One step of the waiter executing wait_until with predicate
(flag = target): lock shared.mutex, then wait_while with the predicate negated
(the source waits while the predicate is false). -/
def waiterStep (target : Bool) (s : LevelState) : Option LevelState :=
  match s.wpc with
  | WPc.start =>
      if s.mutexFree then some { s with mutexFree := false, wpc := WPc.check } else none
  | WPc.check =>
      if s.flag = target then some { s with mutexFree := true, wpc := WPc.done }
      else some { s with wpc := WPc.preWait }
  | WPc.preWait =>
      some { s with queued := true, mutexFree := true, wpc := WPc.blocked,
                    everBlocked := true }
  | WPc.blocked => none
  | WPc.waking =>
      if s.mutexFree then some { s with mutexFree := false, wpc := WPc.check } else none
  | WPc.done => none

/-- One step of the event-source thread: the native service sets the watched
state to target (no lock of this layer is involved), then the handler performs
notify_all — again without acquiring shared.mutex, exactly as in the source. -/
def notifierStep (target : Bool) (s : LevelState) : Option LevelState :=
  match s.npc with
  | NPc.start => some { s with flag := target, npc := NPc.flipped }
  | NPc.flipped =>
      some { s with queued := false,
                    wpc := if s.queued then WPc.waking else s.wpc,
                    npc := NPc.done }
  | NPc.done => none

/-- Scheduler step: true picks the waiter, false the event-source thread. -/
def levelStep (target : Bool) (s : LevelState) (who : Bool) : Option LevelState :=
  if who then waiterStep target s else notifierStep target s

/-- Runs a schedule; a thread that cannot step just stutters. -/
def levelRun (target : Bool) (s : LevelState) : List Bool → LevelState
| [] => s
| t :: ts =>
    match levelStep target s t with
    | some s' => levelRun target s' ts
    | none => levelRun target s ts

/-- Whether no thread of the level machine can take a step. -/
def levelStuck (target : Bool) (s : LevelState) : Bool :=
  (waiterStep target s).isNone && (notifierStep target s).isNone

/-- Initial state of the lost-wakeup scenario: predicate still false, mutex free,
waiter about to enter wait_until, transition not yet delivered. -/
def levelInit : LevelState :=
  { flag := false, mutexFree := true, queued := false, wpc := WPc.start,
    npc := NPc.start, everBlocked := false }

/-! ## Interleaving machine for the edge-triggered counter waits

One waiter thread executes ManagedController::wait_until_counter
(src/managed.rs 104-110) and the event-source thread delivers one qualifying
event through ManagedListener::on_frame (src/managed.rs 163-166): lock the
counter mutex, add one, release it at the end of the statement, then notify_all
without the lock. -/

/-- Program counter of the waiter in wait_until_counter: lock the counter mutex,
read old, then wait_while (counter equals old). -/
inductive CWPc
| start
| read
| check
| preWait
| blocked
| waking
| done
deriving DecidableEq, Repr

/-- Program counter of the event-source thread running on_frame. -/
inductive CHPc
| start
| locked
| incremented
| released
| done
deriving DecidableEq, Repr

/-- Global state of the counter machine: ctr is the u64 behind mutex_frame,
mutexFree tracks that mutex, old is the waiter's captured copy, queued says
whether the waiter sits in the frame condvar queue. -/
structure CtrState where
  ctr : Nat
  mutexFree : Bool
  queued : Bool
  old : Nat
  wpc : CWPc
  hpc : CHPc
deriving DecidableEq, Repr

/-- One step of the waiter executing wait_until_counter. -/
def cwStep (s : CtrState) : Option CtrState :=
  match s.wpc with
  | CWPc.start =>
      if s.mutexFree then some { s with mutexFree := false, wpc := CWPc.read } else none
  | CWPc.read => some { s with old := s.ctr, wpc := CWPc.check }
  | CWPc.check =>
      if s.ctr = s.old then some { s with wpc := CWPc.preWait }
      else some { s with mutexFree := true, wpc := CWPc.done }
  | CWPc.preWait =>
      some { s with queued := true, mutexFree := true, wpc := CWPc.blocked }
  | CWPc.blocked => none
  | CWPc.waking =>
      if s.mutexFree then some { s with mutexFree := false, wpc := CWPc.check } else none
  | CWPc.done => none

/-- One step of the event-source thread running on_frame: the increment happens
under the counter mutex and strictly before the signal. -/
def chStep (s : CtrState) : Option CtrState :=
  match s.hpc with
  | CHPc.start =>
      if s.mutexFree then some { s with mutexFree := false, hpc := CHPc.locked } else none
  | CHPc.locked => some { s with ctr := s.ctr + 1, hpc := CHPc.incremented }
  | CHPc.incremented => some { s with mutexFree := true, hpc := CHPc.released }
  | CHPc.released =>
      some { s with queued := false,
                    wpc := if s.queued then CWPc.waking else s.wpc,
                    hpc := CHPc.done }
  | CHPc.done => none

/-- Scheduler step for the counter machine: true picks the waiter. -/
def cStep (s : CtrState) (who : Bool) : Option CtrState :=
  if who then cwStep s else chStep s

/-- Initial state: counter at 0, mutex free, waiter about to enter
wait_until_counter, one delivery about to start. -/
def cInit : CtrState :=
  { ctr := 0, mutexFree := true, queued := false, old := 0,
    wpc := CWPc.start, hpc := CHPc.start }

/-- Reachability from cInit under arbitrary interleaving. -/
inductive CReach : CtrState → Prop
| init : CReach cInit
| step (s s' : CtrState) (who : Bool) : CReach s → cStep s who = some s' → CReach s'

/-- All successor states of one state. -/
def cSuccs (s : CtrState) : List CtrState :=
  (cStep s true).toList ++ (cStep s false).toList

/-- Adds the unseen successors of every state in l. -/
def cExpand (l : List CtrState) : List CtrState :=
  l.foldl (fun acc s => acc ++ (cSuccs s).filter (fun t => ¬ acc.contains t)) l

/-- Iterates the expansion. -/
def cIter : Nat → List CtrState → List CtrState
| 0, l => l
| n + 1, l => cIter n (cExpand l)

/-- The reachable state space of the counter machine, as a concrete list;
the closure facts proved below certify that it is complete. -/
def cReachList : List CtrState := cIter 16 [cInit]

/-- Whether no thread of the counter machine can take a step. -/
def cStuck (s : CtrState) : Bool :=
  (cwStep s).isNone && (chStep s).isNone

/-- The state of the counter machine reached by letting one full on_frame
delivery complete first and then letting the waiter run until it blocks
(it captured old after the increment, so it rightly keeps waiting). -/
def cBlockedExample : CtrState :=
  { ctr := 1, mutexFree := true, queued := true, old := 1,
    wpc := CWPc.blocked, hpc := CHPc.done }

/-- Invariant of the level machine when the predicate holds from the start:
the watched flag stays at the target value, the waiter never blocks, and its
program counter stays within the non-blocking path, holding the mutex exactly
while it is at the predicate check. -/
def levelInvAlready (target : Bool) (s : LevelState) : Prop :=
  s.flag = target ∧ s.everBlocked = false ∧ s.queued = false ∧
  ((s.wpc = WPc.start ∧ s.mutexFree = true)
   ∨ (s.wpc = WPc.check ∧ s.mutexFree = false)
   ∨ (s.wpc = WPc.done ∧ s.mutexFree = true))

/-! ## Helper lemmas -/

theorem i64AsU64_of_nonneg (x : Int) (h0 : 0 ≤ x) (h1 : x < 2 ^ 64) :
    i64AsU64 x = x.toNat := by
  unfold i64AsU64
  rw [Int.emod_eq_of_lt h0 h1]

theorem checkedSub_eq_none_iff (x y : Nat) : checkedSub x y = none ↔ x < y := by
  unfold checkedSub
  split <;> simp_all

theorem deliver_frame_eq (e : Method) (c : Counters) :
    (deliver e c).frame = c.frame + (if e = Method.on_frame then 1 else 0) := by
  cases e <;> rfl

theorem deliver_images_eq (e : Method) (c : Counters) :
    (deliver e c).images = c.images + (if e = Method.on_images then 1 else 0) := by
  cases e <;> rfl

theorem deliver_device_change_eq (e : Method) (c : Counters) :
    (deliver e c).device_change
      = c.device_change + (if e = Method.on_device_change then 1 else 0) := by
  cases e <;> rfl

theorem deliverAll_cons (e : Method) (evs : List Method) (c : Counters) :
    deliverAll (e :: evs) c = deliverAll evs (deliver e c) := rfl

theorem deliverAll_frame (evs : List Method) (c : Counters) :
    (deliverAll evs c).frame = c.frame + countEv Method.on_frame evs := by
  induction evs generalizing c with
  | nil => rfl
  | cons e rest ih =>
      rw [deliverAll_cons, ih, deliver_frame_eq]
      show _ = c.frame + ((if e = Method.on_frame then 1 else 0) + countEv Method.on_frame rest)
      omega

theorem deliverAll_images (evs : List Method) (c : Counters) :
    (deliverAll evs c).images = c.images + countEv Method.on_images evs := by
  induction evs generalizing c with
  | nil => rfl
  | cons e rest ih =>
      rw [deliverAll_cons, ih, deliver_images_eq]
      show _ = c.images + ((if e = Method.on_images then 1 else 0) + countEv Method.on_images rest)
      omega

theorem deliverAll_device_change (evs : List Method) (c : Counters) :
    (deliverAll evs c).device_change
      = c.device_change + countEv Method.on_device_change evs := by
  induction evs generalizing c with
  | nil => rfl
  | cons e rest ih =>
      rw [deliverAll_cons, ih, deliver_device_change_eq]
      show _ = c.device_change
        + ((if e = Method.on_device_change then 1 else 0) + countEv Method.on_device_change rest)
      omega

theorem cwStep_preserves_ctr (s s' : CtrState) (h : cwStep s = some s') :
    s'.ctr = s.ctr := by
  obtain ⟨ctr, mf, q, old, wpc, hpc⟩ := s
  cases wpc <;> unfold cwStep at h <;> dsimp only at h <;>
    (try split at h) <;>
    first
      | exact Option.noConfusion h
      | (injection h with h2; subst h2; rfl)

theorem mem_cSuccs {s s' : CtrState} {who : Bool} (h : cStep s who = some s') :
    s' ∈ cSuccs s := by
  cases who <;> simp [cStep] at h <;> simp [cSuccs, cStep, h]

theorem cReachList_closed :
    ∀ s ∈ cReachList, ∀ t ∈ cSuccs s, t ∈ cReachList := by decide

theorem cInit_mem : cInit ∈ cReachList := by decide

theorem creach_mem (s : CtrState) (h : CReach s) : s ∈ cReachList := by
  induction h with
  | init => exact cInit_mem
  | step s s' who _ hstep ih => exact cReachList_closed s ih s' (mem_cSuccs hstep)

theorem cReachList_mutual_exclusion :
    ∀ s ∈ cReachList,
      (s.wpc = CWPc.read ∨ s.wpc = CWPc.check ∨ s.wpc = CWPc.preWait) →
      s.hpc ≠ CHPc.locked ∧ s.hpc ≠ CHPc.incremented := by decide

theorem cReachList_handler_locked :
    ∀ s ∈ cReachList,
      (s.hpc = CHPc.locked ∨ s.hpc = CHPc.incremented) → s.mutexFree = false := by decide

theorem cReachList_stuck_good :
    ∀ s ∈ cReachList, cStuck s = true →
      s.wpc = CWPc.done ∨ (s.wpc = CWPc.blocked ∧ s.ctr = s.old) := by decide

theorem levelInvAlready_step (target : Bool) (s : LevelState) (who : Bool)
    (hI : levelInvAlready target s) (s' : LevelState)
    (h : levelStep target s who = some s') : levelInvAlready target s' := by
  obtain ⟨flag, mf, q, wpc, npc, eb⟩ := s
  obtain ⟨h1, h2, h3, h4⟩ := hI
  dsimp only at h1 h2 h3
  subst h1 h2 h3
  cases who
  · cases npc <;> simp [levelStep, notifierStep] at h <;> subst h <;>
      exact ⟨rfl, rfl, rfl, h4⟩
  · rcases h4 with ⟨hw, hm⟩ | ⟨hw, hm⟩ | ⟨hw, hm⟩ <;> dsimp only at hw hm <;>
      subst hw hm <;> simp [levelStep, waiterStep] at h
    · subst h; exact ⟨rfl, rfl, rfl, Or.inr (Or.inl ⟨rfl, rfl⟩)⟩
    · subst h; exact ⟨rfl, rfl, rfl, Or.inr (Or.inr ⟨rfl, rfl⟩)⟩

theorem levelInvAlready_run (target : Bool) (sched : List Bool) (s : LevelState)
    (hI : levelInvAlready target s) :
    levelInvAlready target (levelRun target s sched) := by
  induction sched generalizing s with
  | nil => exact hI
  | cons t ts ih =>
      show levelInvAlready target
        (match levelStep target s t with
         | some s' => levelRun target s' ts
         | none => levelRun target s ts)
      cases h : levelStep target s t with
      | none => exact ih s hI
      | some s' => exact ih s' (levelInvAlready_step target s t hI s' h)

theorem levelRun_cons (target : Bool) (t : Bool) (ts : List Bool) (s : LevelState) :
    levelRun target s (t :: ts)
      = match levelStep target s t with
        | some s' => levelRun target s' ts
        | none => levelRun target s ts := rfl

theorem levelRun_append (target : Bool) (l1 l2 : List Bool) (s : LevelState) :
    levelRun target s (l1 ++ l2) = levelRun target (levelRun target s l1) l2 := by
  induction l1 generalizing s with
  | nil => rfl
  | cons t ts ih =>
      rw [List.cons_append, levelRun_cons, levelRun_cons]
      cases h : levelStep target s t <;> simp [ih]

theorem levelInvAlready_finish (target : Bool) (s : LevelState)
    (hI : levelInvAlready target s) :
    (levelRun target s [true, true]).wpc = WPc.done := by
  obtain ⟨flag, mf, q, wpc, npc, eb⟩ := s
  obtain ⟨h1, h2, h3, h4⟩ := hI
  dsimp only at h1 h2 h3
  subst h1 h2 h3
  rcases h4 with ⟨hw, hm⟩ | ⟨hw, hm⟩ | ⟨hw, hm⟩ <;> dsimp only at hw hm <;>
    subst hw hm <;> cases flag <;> rfl

/-! ## Claim theorems -/

/-- C9: Timestamp::duration_since panics exactly when the u64 reinterpretation of
self is smaller than that of earlier; for nonnegative raw values with self at or
after earlier it returns the difference in microseconds, and with earlier
strictly after self it panics instead of returning an error value. -/
theorem C9_duration_since_panic_iff (a b : Int)
    (ha0 : -(2 ^ 63) ≤ a) (ha1 : a < 2 ^ 63)
    (hb0 : -(2 ^ 63) ≤ b) (hb1 : b < 2 ^ 63) :
    ((duration_since a b = none) ↔ i64AsU64 a < i64AsU64 b)
    ∧ (0 ≤ b → b ≤ a → duration_since a b = some (a - b).toNat)
    ∧ (0 ≤ a → a < b → duration_since a b = none) := by
  refine ⟨checkedSub_eq_none_iff _ _, ?_, ?_⟩
  · intro h1 h2
    have hA : i64AsU64 a = a.toNat :=
      i64AsU64_of_nonneg a (le_trans h1 h2) (lt_trans ha1 (by norm_num))
    have hB : i64AsU64 b = b.toNat :=
      i64AsU64_of_nonneg b h1 (lt_trans hb1 (by norm_num))
    unfold duration_since
    rw [hA, hB]
    unfold checkedSub
    rw [if_neg (by omega)]
    congr 1
    omega
  · intro h1 h2
    have hA : i64AsU64 a = a.toNat :=
      i64AsU64_of_nonneg a h1 (lt_trans ha1 (by norm_num))
    have hB : i64AsU64 b = b.toNat :=
      i64AsU64_of_nonneg b (le_trans h1 (le_of_lt h2)) (lt_trans hb1 (by norm_num))
    unfold duration_since
    rw [hA, hB]
    unfold checkedSub
    rw [if_pos (by omega)]

/-- C9 witness: the theorem applied at the concrete timestamps 10 and 3. -/
theorem C9_duration_since_panic_iff_witness :
    duration_since 10 3 = some 7 ∧ duration_since 3 10 = none := by
  constructor
  · have h := (C9_duration_since_panic_iff 10 3 (by norm_num) (by norm_num)
      (by norm_num) (by norm_num)).2.1 (by norm_num) (by norm_num)
    simpa using h
  · exact (C9_duration_since_panic_iff 3 10 (by norm_num) (by norm_num)
      (by norm_num) (by norm_num)).2.2 (by norm_num) (by norm_num)

/-- C10: Image::camera maps native id 0 to the left camera, 1 to the right one,
and panics (the unreachable arm, modelled as none) for every other id. -/
theorem C10_camera_unreachable_arm :
    camera 0 = some Camera.left
    ∧ camera 1 = some Camera.right
    ∧ ∀ id : Int, id ≠ 0 → id ≠ 1 → camera id = none := by
  refine ⟨by decide, by decide, ?_⟩
  intro id h0 h1
  simp [camera, h0, h1]

/-- C10 witness: the theorem applied at the concrete id 5. -/
theorem C10_camera_unreachable_arm_witness : camera 5 = none :=
  C10_camera_unreachable_arm.2.2 5 (by decide) (by decide)

/-- C8: frame_at accepts every history age in [0, 59] (validity then depends only
on how much history exists), a history age above 59 yields a Frame whose
is_valid check is false, and frame_at is total over its u8 argument type. -/
theorem C8_frame_at_boundary (h : Fin 256) (avail : Nat) :
    (h.val ≤ 59 → (frame_at h avail).is_valid = decide (h.val < avail))
    ∧ (59 < h.val → (frame_at h avail).is_valid = false) := by
  constructor
  · intro hle
    have hb : decide (h.val ≤ 59) = true := decide_eq_true hle
    simp [frame_at, nativeFrame, Frame.is_valid, hb]
  · intro hgt
    have hnb : decide (h.val ≤ 59) = false := decide_eq_false (by omega)
    simp [frame_at, nativeFrame, Frame.is_valid, hnb]

/-- C8 witness: the theorem applied at the concrete ages 60 and 3. -/
theorem C8_frame_at_boundary_witness :
    (frame_at (⟨60, by omega⟩ : Fin 256) 100).is_valid = false
    ∧ (frame_at (⟨3, by omega⟩ : Fin 256) 100).is_valid = decide ((3 : Nat) < 100) := by
  constructor
  · exact (C8_frame_at_boundary ⟨60, by omega⟩ 100).2 (by decide)
  · exact (C8_frame_at_boundary ⟨3, by omega⟩ 100).1 (by decide)

/-- C3 (code bug): add_listener retains the listener exactly when the native
registration succeeds, but it reports nothing to its caller: the value returned
on rejection is the same () as on success (src/lib.rs 46-57 returns unit and
carries a FIXME about the failure path), so no boolean/result reaches the
caller. -/
theorem C3_add_listener_reports_nothing :
    (∀ ls : List Nat, ∀ l : Nat, (add_listener ls l false).1 = ls)
    ∧ (∀ ls : List Nat, ∀ l : Nat, (add_listener ls l true).1 = ls ++ [l])
    ∧ (∀ ls : List Nat, ∀ l : Nat,
        (add_listener ls l false).2 = (add_listener ls l true).2) :=
  ⟨fun _ _ => rfl, fun _ _ => rfl, fun _ _ => rfl⟩

/-- C2: for every event kind and listener, if the user handler panics the
callback wrapper aborts the process and never lets the failure unwind into the
native frame; if the handler returns normally the wrapper returns normally,
having invoked exactly the matching method of exactly that listener once. -/
theorem C2_dispatch_failure_containment (ev : Event) (lid : Nat)
    (behavior : ListenerBehavior) :
    ((∃ e, behavior (methodFor ev) = Except.error e) →
      cbWrapper ev lid behavior
        = (DispatchOutcome.aborted, [(lid, methodFor ev)]))
    ∧ (cbWrapper ev lid behavior).1 ≠ DispatchOutcome.unwound
    ∧ (behavior (methodFor ev) = Except.ok () →
      cbWrapper ev lid behavior
        = (DispatchOutcome.returned, [(lid, methodFor ev)])) := by
  unfold cbWrapper dispatch catchUnwind
  refine ⟨?_, ?_, ?_⟩
  · rintro ⟨e, he⟩
    rw [he]
  · cases h : behavior (methodFor ev) <;> simp [h]
  · intro h
    rw [h]

/-- C2 witness: the theorem applied to a panicking frame handler. -/
theorem C2_dispatch_failure_containment_witness :
    cbWrapper Event.frame 7 (fun _ => Except.error "boom")
      = (DispatchOutcome.aborted, [(7, Method.on_frame)]) :=
  (C2_dispatch_failure_containment Event.frame 7 (fun _ => Except.error "boom")).1
    ⟨"boom", rfl⟩

/-- C5: over any delivery sequence the Frame/Images/DeviceChange counters grow by
exactly the number of corresponding deliveries (hence are non-decreasing and
never reset), and the wait operations of the layer never modify a counter. -/
theorem C5_counter_monotonicity (evs : List Method) (c : Counters) :
    ((deliverAll evs c).frame = c.frame + countEv Method.on_frame evs)
    ∧ ((deliverAll evs c).images = c.images + countEv Method.on_images evs)
    ∧ ((deliverAll evs c).device_change
        = c.device_change + countEv Method.on_device_change evs)
    ∧ c.frame ≤ (deliverAll evs c).frame
    ∧ c.images ≤ (deliverAll evs c).images
    ∧ c.device_change ≤ (deliverAll evs c).device_change
    ∧ (∀ s s' : CtrState, cwStep s = some s' → s'.ctr = s.ctr) := by
  refine ⟨deliverAll_frame evs c, deliverAll_images evs c,
    deliverAll_device_change evs c, ?_, ?_, ?_, cwStep_preserves_ctr⟩
  · rw [deliverAll_frame]; omega
  · rw [deliverAll_images]; omega
  · rw [deliverAll_device_change]; omega

/-- C5 witness: the theorem applied to a concrete delivery sequence and to the
first step of a concrete waiter. -/
theorem C5_counter_monotonicity_witness :
    (deliverAll [Method.on_frame, Method.on_connect, Method.on_frame]
        { frame := 0, images := 0, device_change := 0 }).frame
      = 0 + countEv Method.on_frame [Method.on_frame, Method.on_connect, Method.on_frame]
    ∧ ({ ctr := 0, mutexFree := false, queued := false, old := 0,
         wpc := CWPc.read, hpc := CHPc.start } : CtrState).ctr = cInit.ctr := by
  constructor
  · exact (C5_counter_monotonicity
      [Method.on_frame, Method.on_connect, Method.on_frame]
      { frame := 0, images := 0, device_change := 0 }).1
  · exact (C5_counter_monotonicity []
      { frame := 0, images := 0, device_change := 0 }).2.2.2.2.2.2
      cInit _ (by decide)

/-- C6: the internal listener is registered exactly once by
ManagedController::new; its connect/disconnect/focus handlers write nothing and
only signal their condvar; its frame/images/device-change handlers increment
their counter and then signal; and its on_init/on_exit handlers do nothing. -/
theorem C6_internal_listener_behavior :
    registrationCount = 1
    ∧ traceOf (handlerActs Method.on_connect) = [Obs.signalled CvId.device_connect]
    ∧ traceOf (handlerActs Method.on_disconnect) = [Obs.signalled CvId.device_disconnect]
    ∧ traceOf (handlerActs Method.on_focus_gained) = [Obs.signalled CvId.focus_gained]
    ∧ traceOf (handlerActs Method.on_focus_lost) = [Obs.signalled CvId.focus_lost]
    ∧ (∀ c : Counters, deliver Method.on_connect c = c)
    ∧ (∀ c : Counters, deliver Method.on_disconnect c = c)
    ∧ (∀ c : Counters, deliver Method.on_focus_gained c = c)
    ∧ (∀ c : Counters, deliver Method.on_focus_lost c = c)
    ∧ traceOf (handlerActs Method.on_frame)
        = [Obs.wrote MutexId.frameCtr, Obs.signalled CvId.frame]
    ∧ traceOf (handlerActs Method.on_images)
        = [Obs.wrote MutexId.imagesCtr, Obs.signalled CvId.images]
    ∧ traceOf (handlerActs Method.on_device_change)
        = [Obs.wrote MutexId.deviceChangeCtr, Obs.signalled CvId.device_change]
    ∧ (∀ c : Counters, deliver Method.on_frame c = { c with frame := c.frame + 1 })
    ∧ (∀ c : Counters, deliver Method.on_images c = { c with images := c.images + 1 })
    ∧ (∀ c : Counters,
        deliver Method.on_device_change c = { c with device_change := c.device_change + 1 })
    ∧ handlerActs Method.on_init = []
    ∧ handlerActs Method.on_exit = [] := by
  refine ⟨rfl, rfl, rfl, rfl, rfl, fun c => rfl, fun c => rfl, fun c => rfl, fun c => rfl,
    rfl, rfl, rfl, fun c => rfl, fun c => rfl, fun c => rfl, rfl, rfl⟩

/-- C1 (code bug): every level-triggered handler of ManagedListener performs its
notify_all without holding shared.mutex, the lock the waiter in wait_until holds
while re-checking the predicate; as a consequence there is a concrete
interleaving in which the connect transition is applied and notified between the
waiter's predicate check and its block, after which the machine is stuck with
the waiter blocked although the predicate is true: the transition was not
observed by the re-check and the wakeup is lost. -/
theorem C1_notify_not_under_waiter_lock :
    notifiesUnderLock on_connect_acts MutexId.shared = false
    ∧ notifiesUnderLock on_disconnect_acts MutexId.shared = false
    ∧ notifiesUnderLock on_service_connect_acts MutexId.shared = false
    ∧ notifiesUnderLock on_service_disconnect_acts MutexId.shared = false
    ∧ notifiesUnderLock on_focus_gained_acts MutexId.shared = false
    ∧ notifiesUnderLock on_focus_lost_acts MutexId.shared = false
    ∧ (levelRun true levelInit [true, true, false, false, true]).flag = true
    ∧ (levelRun true levelInit [true, true, false, false, true]).wpc = WPc.blocked
    ∧ (levelRun true levelInit [true, true, false, false, true]).everBlocked = true
    ∧ levelStuck true (levelRun true levelInit [true, true, false, false, true]) = true := by
  decide

/-- C4: the counter waiter reads old only after acquiring the counter mutex,
blocks exactly while the counter equals old (atomically enqueueing and releasing
the mutex), the on_frame delivery increments the counter under that same mutex
(mutual exclusion with the waiter's read/check section holds in every reachable
state) and signals only afterwards; in every reachable stuck state the waiter
has either completed its wait or is blocked with the counter still equal to its
captured old — no increment that occurred after the capture is ever missed. -/
theorem C4_counter_wait_no_lost_increment :
    (∀ s : CtrState, s.wpc = CWPc.start → s.mutexFree = false → cwStep s = none)
    ∧ (∀ s : CtrState, s.wpc = CWPc.read →
        cwStep s = some { s with old := s.ctr, wpc := CWPc.check })
    ∧ (∀ s : CtrState, s.wpc = CWPc.check → s.ctr = s.old →
        cwStep s = some { s with wpc := CWPc.preWait })
    ∧ (∀ s : CtrState, s.wpc = CWPc.check → s.ctr ≠ s.old →
        cwStep s = some { s with mutexFree := true, wpc := CWPc.done })
    ∧ (∀ s : CtrState, s.wpc = CWPc.preWait →
        cwStep s = some { s with queued := true, mutexFree := true, wpc := CWPc.blocked })
    ∧ (∀ s : CtrState, s.hpc = CHPc.locked →
        chStep s = some { s with ctr := s.ctr + 1, hpc := CHPc.incremented })
    ∧ traceOf on_frame_acts = [Obs.wrote MutexId.frameCtr, Obs.signalled CvId.frame]
    ∧ (∀ s : CtrState, CReach s →
        (s.wpc = CWPc.read ∨ s.wpc = CWPc.check ∨ s.wpc = CWPc.preWait) →
        s.hpc ≠ CHPc.locked ∧ s.hpc ≠ CHPc.incremented)
    ∧ (∀ s : CtrState, CReach s →
        (s.hpc = CHPc.locked ∨ s.hpc = CHPc.incremented) → s.mutexFree = false)
    ∧ (∀ s : CtrState, CReach s → cStuck s = true →
        s.wpc = CWPc.done ∨ (s.wpc = CWPc.blocked ∧ s.ctr = s.old)) := by
  refine ⟨?_, ?_, ?_, ?_, ?_, ?_, rfl, ?_, ?_, ?_⟩
  · intro s h1 h2; simp [cwStep, h1, h2]
  · intro s h; simp [cwStep, h]
  · intro s h1 h2; simp [cwStep, h1, h2]
  · intro s h1 h2; simp [cwStep, h1, h2]
  · intro s h; simp [cwStep, h]
  · intro s h; simp [chStep, h]
  · intro s hr hcase; exact cReachList_mutual_exclusion s (creach_mem s hr) hcase
  · intro s hr hcase; exact cReachList_handler_locked s (creach_mem s hr) hcase
  · intro s hr hstuck; exact cReachList_stuck_good s (creach_mem s hr) hstuck

/-- C4 witness: the theorem applied at the reachable stuck state in which a full
delivery completed before the waiter captured old. -/
theorem C4_counter_wait_no_lost_increment_witness :
    cBlockedExample.wpc = CWPc.done
    ∨ (cBlockedExample.wpc = CWPc.blocked ∧ cBlockedExample.ctr = cBlockedExample.old) := by
  have r1 : CReach { ctr := 0, mutexFree := false, queued := false, old := 0, wpc := CWPc.start, hpc := CHPc.locked } :=
    CReach.step _ _ false CReach.init (by decide)
  have r2 : CReach { ctr := 1, mutexFree := false, queued := false, old := 0, wpc := CWPc.start, hpc := CHPc.incremented } :=
    CReach.step _ _ false r1 (by decide)
  have r3 : CReach { ctr := 1, mutexFree := true, queued := false, old := 0, wpc := CWPc.start, hpc := CHPc.released } :=
    CReach.step _ _ false r2 (by decide)
  have r4 : CReach { ctr := 1, mutexFree := true, queued := false, old := 0, wpc := CWPc.start, hpc := CHPc.done } :=
    CReach.step _ _ false r3 (by decide)
  have r5 : CReach { ctr := 1, mutexFree := false, queued := false, old := 0, wpc := CWPc.read, hpc := CHPc.done } :=
    CReach.step _ _ true r4 (by decide)
  have r6 : CReach { ctr := 1, mutexFree := false, queued := false, old := 1, wpc := CWPc.check, hpc := CHPc.done } :=
    CReach.step _ _ true r5 (by decide)
  have r7 : CReach { ctr := 1, mutexFree := false, queued := false, old := 1, wpc := CWPc.preWait, hpc := CHPc.done } :=
    CReach.step _ _ true r6 (by decide)
  have r8 : CReach cBlockedExample :=
    CReach.step _ _ true r7 (by decide)
  exact C4_counter_wait_no_lost_increment.2.2.2.2.2.2.2.2.2 cBlockedExample r8 (by decide)

/-- C7: if the awaited level-triggered predicate already holds when wait_until is
entered, then under every interleaving with the event-source thread the waiter
never reaches the condvar enqueue (its everBlocked flag stays false and it is
never at preWait or blocked), because the predicate is evaluated, under the
mutex, before the first possible block; two further waiter steps always complete
the wait. -/
theorem C7_wait_returns_without_blocking (target : Bool) (s0 : LevelState)
    (hflag : s0.flag = target) (hpc : s0.wpc = WPc.start)
    (hq : s0.queued = false) (heb : s0.everBlocked = false)
    (hmf : s0.mutexFree = true) (sched : List Bool) :
    (levelRun target s0 sched).everBlocked = false
    ∧ (levelRun target s0 sched).wpc ≠ WPc.preWait
    ∧ (levelRun target s0 sched).wpc ≠ WPc.blocked
    ∧ (levelRun target s0 (sched ++ [true, true])).wpc = WPc.done := by
  have hI : levelInvAlready target s0 := ⟨hflag, heb, hq, Or.inl ⟨hpc, hmf⟩⟩
  have hrun := levelInvAlready_run target sched s0 hI
  obtain ⟨h1, h2, h3, h4⟩ := hrun
  refine ⟨h2, ?_, ?_, ?_⟩
  · rcases h4 with ⟨hw, _⟩ | ⟨hw, _⟩ | ⟨hw, _⟩ <;> simp [hw]
  · rcases h4 with ⟨hw, _⟩ | ⟨hw, _⟩ | ⟨hw, _⟩ <;> simp [hw]
  · rw [levelRun_append]
    exact levelInvAlready_finish target _ ⟨h1, h2, h3, h4⟩

/-- C7 witness: the theorem applied at a concrete initial state with the device
already connected and a concrete schedule. -/
theorem C7_wait_returns_without_blocking_witness :
    (levelRun true
        { flag := true, mutexFree := true, queued := false, wpc := WPc.start,
          npc := NPc.start, everBlocked := false } [false, true, false, true]).everBlocked
      = false :=
  (C7_wait_returns_without_blocking true
    { flag := true, mutexFree := true, queued := false, wpc := WPc.start,
      npc := NPc.start, everBlocked := false }
    rfl rfl rfl rfl rfl [false, true, false, true]).1

end Leapcpp
